import Mathlib

/-!
Verification development for the vod-migrator resource-resolution core
(src/vod_migrator/lambda/DashVodAsset.py, HlsVodAsset.py, Downloader.py).

The Python code is shallowly embedded: strings are Lean Strings (operated on
through their character lists, with helper functions mirroring the semantics
of the Python string methods used by the source), machine integers are Int,
and fallible code returns Except or Option.  Each definition carries a note
saying which source function or lines it embeds.
-/

namespace VodMigrator

/-- Errors raised by the modelled Python operations. -/
inductive PyError where
  | indexError
  | keyError
  | valueError
  deriving DecidableEq

/-- Python whitespace characters matched by the regex class backslash-s
(space, tab, newline, carriage return, vertical tab, form feed). -/
def isPySpace (c : Char) : Bool :=
  c = ' ' ∨ c = '\t' ∨ c = '\n' ∨ c = '\r' ∨ c = '\x0b' ∨ c = '\x0c'

/-- Splits a character list at the first occurrence of the character sep:
returns the part before and the part after (the remainder is empty when the
separator is absent).  Used to model the Python idioms
line.split(sep, 1) and urlparse component extraction. -/
def breakOnChar (sep : Char) : List Char → List Char × List Char
  | [] => ([], [])
  | c :: rest =>
    if c = sep then ([], rest)
    else
      let p := breakOnChar sep rest
      (c :: p.1, p.2)

/-- Splits a character list at the first occurrence of the substring pat:
returns the part before and the part after the occurrence. -/
def breakOnSub (pat : List Char) : List Char → List Char × List Char
  | [] => ([], [])
  | c :: rest =>
    if pat.isPrefixOf (c :: rest) then ([], (c :: rest).drop pat.length)
    else
      let p := breakOnSub pat rest
      (c :: p.1, p.2)

/-- Python str.split(sep) for a single-character separator: splits at every
occurrence, keeping empty fields. -/
def splitOnCharL (sep : Char) : List Char → List (List Char)
  | [] => [[]]
  | c :: rest =>
    if c = sep then [] :: splitOnCharL sep rest
    else
      match splitOnCharL sep rest with
      | [] => [[c]]
      | s :: ss => (c :: s) :: ss

/-- Python substring containment (the in operator on str). -/
def containsSubL (pat : List Char) : List Char → Bool
  | [] => pat.isEmpty
  | c :: rest => pat.isPrefixOf (c :: rest) || containsSubL pat rest

/-- Python str.replace: replaces every non-overlapping occurrence of pat,
scanning left to right.  The patterns used by the source are non-empty; an
empty pattern leaves the string unchanged here.  The fuel argument only
bounds the recursion depth; one character is consumed per step at least, so
fuel equal to the length of the subject never runs out. -/
def replaceAllGo (pat rep : List Char) : Nat → List Char → List Char
  | 0, s => s
  | _ + 1, [] => []
  | fuel + 1, c :: rest =>
    if pat ≠ [] ∧ pat.isPrefixOf (c :: rest) then
      rep ++ replaceAllGo pat rep fuel ((c :: rest).drop pat.length)
    else
      c :: replaceAllGo pat rep fuel rest

/-- Python str.replace over character lists. -/
def replaceAllL (pat rep s : List Char) : List Char :=
  replaceAllGo pat rep s.length s

/-- String wrapper for replaceAllL (Python s.replace(pat, rep)). -/
def pyReplace (s pat rep : String) : String :=
  String.mk (replaceAllL pat.data rep.data s.data)

/-- String wrapper for containsSubL (Python pat in s). -/
def pyIn (pat s : String) : Bool :=
  containsSubL pat.data s.data

/-- Python s.startswith(pat). -/
def pyStartswith (s pat : String) : Bool :=
  pat.data.isPrefixOf s.data

/-- Python s.endswith for the single character given (true iff the last
character equals it). -/
def endsWithChar (c : Char) (s : String) : Bool :=
  s.data.getLast? = some c

/-- Python s.strip(c) for a single strip character: removes every leading and
trailing occurrence of c. -/
def stripCharL (c : Char) (s : List Char) : List Char :=
  ((s.dropWhile (· = c)).reverse.dropWhile (· = c)).reverse

/-- Index of the last occurrence of c in cs (Python s.rfind), if any. -/
def rfindCharIdx (c : Char) (cs : List Char) : Option Nat :=
  match cs.reverse.findIdx? (· = c) with
  | none => none
  | some j => some (cs.length - 1 - j)

/-!  URL parsing and path manipulation.  These embed the fragment of
urllib.parse.urlparse and of the posixpath functions (os.path on the Lambda
runtime) that the source exercises. -/

/-- Result of urllib.parse.urlparse restricted to the components the source
reads (scheme, netloc, path, query; the fragment is split off so that the
query never contains it). -/
structure ParsedUrl where
  scheme : String
  netloc : String
  path : String
  query : String
  fragment : String
  deriving DecidableEq

/-- Models urllib.parse.urlparse for the URL shapes the source handles: the
fragment is everything after the first hash sign, the query everything after
the first question mark before it; a scheme://netloc head, when present, is
split off with the netloc running up to the first slash.  A reference without
the scheme marker keeps everything in the path component, as urlparse does
for plain relative paths. -/
def pyUrlparse (url : String) : ParsedUrl :=
  let noFrag := breakOnChar '#' url.data
  let noQuery := breakOnChar '?' noFrag.1
  if containsSubL (':' :: '/' :: '/' :: []) noQuery.1 then
    let schemeRest := breakOnSub (':' :: '/' :: '/' :: []) noQuery.1
    let netlocPath := schemeRest.2.span (· ≠ '/')
    ⟨String.mk schemeRest.1, String.mk netlocPath.1, String.mk netlocPath.2,
      String.mk noQuery.2, String.mk noFrag.2⟩
  else
    ⟨"", "", String.mk noQuery.1, String.mk noQuery.2, String.mk noFrag.2⟩

/-- posixpath.normpath: collapses repeated slashes and single-dot components,
resolves double-dot components against preceding ones, keeps leading
double-dots of relative paths, and preserves the POSIX rule that exactly two
leading slashes stay two while one or three and more become one. -/
def pyNormpath (path : String) : String :=
  let cs := path.data
  if cs = [] then "."
  else
    let initialSlashes : Nat :=
      if cs.take 1 = ['/'] then
        if cs.take 2 = ['/', '/'] ∧ cs.take 3 ≠ ['/', '/', '/'] then 2 else 1
      else 0
    let comps := splitOnCharL '/' cs
    let newComps := comps.foldl (fun acc comp =>
      if comp = [] ∨ comp = ['.'] then acc
      else if comp ≠ ['.', '.'] ∨ (initialSlashes = 0 ∧ acc = []) ∨
          (acc.getLast? = some ['.', '.']) then acc ++ [comp]
      else if acc ≠ [] then acc.dropLast
      else acc) []
    let joined := List.intercalate ['/'] newComps
    let full := List.replicate initialSlashes '/' ++ joined
    if full = [] then "." else String.mk full

/-- posixpath.dirname: everything up to the last slash, with trailing slashes
stripped unless the head consists of slashes only. -/
def pyDirname (p : String) : String :=
  let cs := p.data
  let i := match rfindCharIdx '/' cs with
    | none => 0
    | some k => k + 1
  let head := cs.take i
  if head ≠ [] ∧ head.any (· ≠ '/') then
    String.mk ((head.reverse.dropWhile (· = '/')).reverse)
  else String.mk head

/-- posixpath.basename: everything after the last slash. -/
def pyBasename (p : String) : String :=
  let cs := p.data
  let i := match rfindCharIdx '/' cs with
    | none => 0
    | some k => k + 1
  String.mk (cs.drop i)

/-- Lexicographic comparison of character lists by code point, the order
Python uses to compare strings. -/
def pyStrLt : List Char → List Char → Bool
  | [], [] => false
  | [], _ :: _ => true
  | _ :: _, [] => false
  | a :: as, b :: bs =>
    if a = b then pyStrLt as bs else decide (a < b)

/-- Character-wise longest common prefix of two lists. -/
def lcpL : List Char → List Char → List Char
  | a :: as, b :: bs => if a = b then a :: lcpL as bs else []
  | _, _ => []

/-- os.path.commonprefix: the character-wise longest common prefix of all the
strings, computed as in the CPython source by comparing the lexicographic
minimum and maximum of the list. -/
def commonprefixOf (m : List String) : String :=
  match m with
  | [] => ""
  | s :: rest =>
    let s1 := rest.foldl (fun a b => if pyStrLt b.data a.data then b else a) s
    let s2 := rest.foldl (fun a b => if pyStrLt a.data b.data then b else a) s
    String.mk (lcpL s1.data s2.data)

/-!  Regular-expression fragment.  DashVodAsset.parseDashVodAsset and
HlsVodAsset.parseHlsVodAsset build the pattern basename-plus-dollar with
re.compile and substitute the empty string for its match.  The model below
covers the regex constructs such a pattern can exercise on URL basenames:
literal characters, the dot wildcard, the postfix quantifiers star, plus and
question mark, and the terminal end-of-string anchor (the appended dollar). -/

/-- Whether a pattern atom (a literal character or the dot wildcard) matches
one character. -/
def reAtomMatches (a c : Char) : Bool :=
  a = '.' ∨ a = c

/-- Whether the pattern (read with the fragment semantics above, and anchored
so that the whole remaining subject must be consumed, as the appended dollar
forces) matches the subject. -/
def reMatchEndGo : Nat → List Char → List Char → Bool
  | 0, pat, s => pat.isEmpty && s.isEmpty
  | _ + 1, [], s => s.isEmpty
  | fuel + 1, _ :: '*' :: rest2, [] => reMatchEndGo fuel rest2 []
  | fuel + 1, a :: '*' :: rest2, c :: s2 =>
    (reAtomMatches a c && reMatchEndGo fuel (a :: '*' :: rest2) s2) ||
      reMatchEndGo fuel rest2 (c :: s2)
  | _ + 1, _ :: '+' :: _, [] => false
  | fuel + 1, a :: '+' :: rest2, c :: s2 =>
    reAtomMatches a c && reMatchEndGo fuel (a :: '*' :: rest2) s2
  | fuel + 1, _ :: '?' :: rest2, [] => reMatchEndGo fuel rest2 []
  | fuel + 1, a :: '?' :: rest2, c :: s2 =>
    (reAtomMatches a c && reMatchEndGo fuel rest2 s2) || reMatchEndGo fuel rest2 (c :: s2)
  | _ + 1, _ :: _, [] => false
  | fuel + 1, a :: rest, c :: s2 => reAtomMatches a c && reMatchEndGo fuel rest s2

/-- The anchored matcher; every recursive step of the search lowers the
summed length of the pattern and the remaining subject, so that sum is
enough fuel. -/
def reMatchEnd (pat s : List Char) : Bool :=
  reMatchEndGo (s.length + pat.length) pat s

/-- re.sub of the empty string for the pattern pat anchored at the end of the
string (pattern pat-plus-dollar): the leftmost match runs to the end of the
subject, so the substitution keeps the part before it; a subject without a
match is returned unchanged. -/
def reSubEndAnchored (pat s : List Char) : List Char :=
  match (List.range (s.length + 1)).find? (fun i => reMatchEnd pat (s.drop i)) with
  | some i => s.take i
  | none => s

/-- Embeds the common-prefix computation shared by
DashVodAsset.parseDashVodAsset (lines 104..111) and
HlsVodAsset.parseHlsVodAsset (lines 87..94): the character-wise common prefix
of the unique resource URLs; when it does not end in a slash, the basename is
compiled into an end-anchored regex and substituted away. -/
def computeCommonPre (uniqueResources : List String) : String :=
  let cp := commonprefixOf uniqueResources
  if endsWithChar '/' cp then cp
  else
    let unwantedPathSuffix := pyBasename cp
    String.mk (reSubEndAnchored unwantedPathSuffix.data cp.data)

/-!  URL normalization and reference resolution
(normalizeUrl in both DashVodAsset.py lines 325..335 and HlsVodAsset.py lines
267..277, and the reference resolution step of
HlsVodAsset.__parseMasterManifest lines 212..217 and
HlsVodAsset.__parseVariantManifest lines 252..257). -/

/-- normalizeUrl: parse the URL, normalize its path with normpath, rebuild
scheme://netloc followed by the path, and re-attach a non-empty query. -/
def normalizeUrl (url : String) : String :=
  let parsedUrl := pyUrlparse url
  let absPath := pyNormpath parsedUrl.path
  let absUrl := parsedUrl.scheme ++ "://" ++ parsedUrl.netloc ++ absPath
  if parsedUrl.query ≠ "" then absUrl ++ "?" ++ parsedUrl.query
  else absUrl

/-- Reference resolution as written at HlsVodAsset.py lines 252..257 (and
identically at lines 212..217): a non-empty name starting with the four
characters http is taken verbatim; any other non-empty name is joined to the
directory of the manifest URL and normalized; the empty name passes through
(the callers drop it). -/
def resolveReference (manifestUrl name : String) : String :=
  if name ≠ "" ∧ pyStartswith name "http" = true then name
  else if name ≠ "" then normalizeUrl (pyDirname manifestUrl ++ "/" ++ name)
  else name

/-!  DASH segment-template expansion
(getAdaptationSetSegmentList, DashVodAsset.py lines 193..231). -/

/-- Media-template expansion, DashVodAsset.py lines 195..201: substitute the
representation id for the RepresentationID placeholder and the bandwidth for
the Bandwidth placeholder, each only when present. -/
def expandMediaSegmentTemplate (media repId bandwidth : String) : String :=
  let m1 := if pyIn "$RepresentationID$" media then
      pyReplace media "$RepresentationID$" repId
    else media
  if pyIn "$Bandwidth$" m1 then pyReplace m1 "$Bandwidth$" bandwidth else m1

/-- Init-template expansion, DashVodAsset.py lines 222..231, embedded exactly
as written: the RepresentationID substitution acts on the init template, but
the Bandwidth branch assigns the result of replacing within
mediaSegmentTemplate (the already expanded media template), and the Time
branch likewise assigns a replacement performed on mediaSegmentTemplate. -/
def expandInitSegmentTemplate (ini mediaSegmentTemplate repId bandwidth : String) : String :=
  let i1 := if pyIn "$RepresentationID$" ini then
      pyReplace ini "$RepresentationID$" repId
    else ini
  let i2 := if pyIn "$Bandwidth$" i1 then
      pyReplace mediaSegmentTemplate "$Bandwidth$" bandwidth
    else i1
  if pyIn "$Time$" i2 then pyReplace mediaSegmentTemplate "$Time$" "i" else i2

/-!  HLS playlist line handling (HlsVodAsset.__parseMasterManifest lines
173..224 and HlsVodAsset.__parseVariantManifest lines 229..264).  The per-line
classification returns the reference the line contributes, if any; Python
exceptions raised while classifying are modelled as errors. -/

/-- The attribute-list splitter used by both playlist parsers:
re.split on a comma followed by optional whitespace, with a lookahead
accepting only positions followed by an even number of double quotes, so that
commas inside a quoted value never separate.  The even-quote test on the
remaining suffix reproduces that lookahead. -/
def splitAttrGo : Nat → List Char → List (List Char)
  | 0, _ => [[]]
  | _ + 1, [] => [[]]
  | fuel + 1, c :: rest =>
    if c = ',' ∧ (rest.count '"') % 2 = 0 then
      [] :: splitAttrGo fuel (rest.dropWhile isPySpace)
    else
      match splitAttrGo fuel rest with
      | [] => [[c]]
      | s :: ss => (c :: s) :: ss

/-- The splitter; each step consumes at least one character, so the length of
the input is enough fuel. -/
def splitAttrList (cs : List Char) : List (List Char) :=
  splitAttrGo cs.length cs

/-- One attribute: keyVal.split with an equals sign and maxsplit one, then
strip double quotes from the value.  A fragment without an equals sign makes
the two-element unpacking raise ValueError. -/
def parseKeyVal (kv : List Char) : Except PyError (String × String) :=
  if kv.contains '=' then
    let p := breakOnChar '=' kv
    .ok (String.mk p.1, String.mk (stripCharL '"' p.2))
  else .error .valueError

/-- The attribute dictionary built by the loop over the split attribute list;
later bindings of a key overwrite earlier ones, as Python dict assignment
does. -/
def parseAttrs (cs : List Char) : Except PyError (List (String × String)) :=
  (splitAttrList cs).mapM parseKeyVal

/-- Dictionary lookup honouring the overwrite semantics: the last binding of
the key wins. -/
def dictGet (attrs : List (String × String)) (k : String) : Option String :=
  (attrs.reverse.find? (fun p => p.1 = k)).map (fun p => p.2)

/-- Master-playlist line classification, HlsVodAsset.__parseMasterManifest
lines 178..208: a media or iframe tag line has everything after the first
colon parsed as attributes and contributes its URI value when that value is
truthy (a missing URI key raises KeyError); a blank line is skipped; any
other line contributes itself unless it starts with the hash character. -/
def classifyMasterLine (line : String) : Except PyError (Option String) :=
  if pyStartswith line "#EXT-X-MEDIA:" || pyStartswith line "#EXT-X-I-FRAME-STREAM-INF:" then
    match parseAttrs (breakOnChar ':' line.data).2 with
    | .error e => .error e
    | .ok attrs =>
      match dictGet attrs "URI" with
      | none => .error .keyError
      | some uri => if uri ≠ "" then .ok (some uri) else .ok none
  else if line = "" then .ok none
  else
    match line.data with
    | [] => .ok none
    | c :: _ => if c ≠ '#' then .ok (some line) else .ok none

/-- Variant-playlist line classification, HlsVodAsset.__parseVariantManifest
lines 237..250: a map or iframe tag line contributes its URI attribute (a
missing URI key raises KeyError); any other line is indexed at position zero,
so the empty line raises IndexError, and a line not starting with the hash
character contributes itself. -/
def classifyVariantLine (line : String) : Except PyError (Option String) :=
  if pyStartswith line "#EXT-X-MAP:" || pyStartswith line "#EXT-X-I-FRAME-STREAM-INF:" then
    match parseAttrs (breakOnChar ':' line.data).2 with
    | .error e => .error e
    | .ok attrs =>
      match dictGet attrs "URI" with
      | none => .error .keyError
      | some uri => .ok (some uri)
  else
    match line.data with
    | [] => .error .indexError
    | c :: _ => if c ≠ '#' then .ok (some line) else .ok none

/-!  DASH timeline resolution (getSegmentTimeline, DashVodAsset.py lines
269..302, and getInferredSegmentTimeline, lines 305..322). -/

/-- An S element of a SegmentTimeline as the mpegdash parser hands it over:
optional start time t, duration d, optional repeat count r. -/
structure SElem where
  t : Option Int
  d : Int
  r : Option Int
  deriving DecidableEq

/-- The loop body of getSegmentTimeline: the cursor starts unset; an element
with an explicit t resets it; the element emits the cursor value and then one
value per repeat; the cursor advances by the repeat count plus one times the
duration.  Reading an unset cursor is the TypeError the Python code would
raise on adding None, modelled as none. -/
def getSegmentTimelineGo : Option Int → List SElem → Option (List Int)
  | _, [] => some []
  | cursor, comp :: rest =>
    let tcur := match comp.t with
      | some v => some v
      | none => cursor
    match tcur with
    | none => none
    | some t =>
      let r := comp.r.getD 0
      let emitted := t :: (List.range r.toNat).map (fun x => t + (x + 1) * comp.d)
      match getSegmentTimelineGo (some (t + (r + 1) * comp.d)) rest with
      | none => none
      | some more => some (emitted ++ more)

/-- getSegmentTimeline over the list of S elements of the single timeline. -/
def getSegmentTimeline (ss : List SElem) : Option (List Int) :=
  getSegmentTimelineGo none ss

/-- Modelled from the spec (section 4.3, explicit mode), for comparison with
the source embedding: a running cursor, reset by an explicit start time,
emits t and then t plus k times the duration for k from one to the repeat
count, and advances by the repeat count plus one times the duration. -/
def specExplicitTimeline : Int → List SElem → List Int
  | _, [] => []
  | cursor, comp :: rest =>
    let t := comp.t.getD cursor
    let r := comp.r.getD 0
    (t :: (List.range r.toNat).map (fun k => t + (k + 1) * comp.d)) ++
      specExplicitTimeline (t + (r + 1) * comp.d) rest

/-- Digit run to a natural number. -/
def digitsToNat (ds : List Char) : Nat :=
  ds.foldl (fun n c => 10 * n + (c.toNat - 48)) 0

/-- Modelled from the spec: isodate.parse_duration followed by
total_seconds, for the whole-second durations the claims exercise (the
isodate library is not part of this repository).  Recognized shape: the
letters P and T, a non-empty digit run, and the letter S. -/
def parse_duration (s : String) : Option ℚ :=
  match s.data with
  | 'P' :: 'T' :: rest =>
    if rest.getLast? = some 'S' then
      let digits := rest.dropLast
      if digits ≠ [] ∧ digits.all Char.isDigit then some ((digitsToNat digits : ℕ) : ℚ)
      else none
    else none
  | _ => none

/-- Python int() applied to a rational: truncation toward zero. -/
def pyInt (q : ℚ) : Int :=
  if 0 ≤ q then q.floor else -(-q).floor

/-- Python list(range(a, b)). -/
def pyRange (a b : Int) : List Int :=
  (List.range (b - a).toNat).map (fun i => a + i)

/-- getInferredSegmentTimeline, DashVodAsset.py lines 305..322: segment size
is the template duration over the timescale; the period duration string is
parsed to seconds; the number of segments is the truncated quotient; the
result lists the segment numbers from startNumber on.  Arithmetic is modelled
exactly over the rationals; an unparsable duration is modelled as none. -/
def getInferredSegmentTimeline (startNumber : Int) (timescale duration : ℚ)
    (periodDuration : String) : Option (List Int) :=
  let segmentSize : ℚ := duration / timescale
  match parse_duration periodDuration with
  | none => none
  | some seconds =>
    let numberSegments := pyInt (seconds / segmentSize)
    some (pyRange startNumber (startNumber + numberSegments))

/-!  Downloader (Downloader.py).  The network is abstracted as the outcome
each attempt observes: either a transport-level failure, where urlopen raises
and no response exists, or a well-formed response with a status code, body
and content type. -/

/-- What one HTTP attempt observes. -/
inductive HttpOutcome where
  | transportError
  | response (status : Nat) (body : String) (contentType : String)
  deriving DecidableEq

/-- The tuple (statusCode, urlPayload, contentType, errorMessage) that
Downloader.__loadUrlWorker returns. -/
structure FetchResult where
  statusCode : Option Nat
  urlPayload : Option String
  contentType : Option String
  errorMessage : Option String
  deriving DecidableEq

/-- Downloader.__loadUrlWorker, lines 62..109, given the outcome of its one
network attempt: an IOError yields the all-None tuple; a response with a
status other than 200 yields the status with no payload, decoding a JSON
body into the error message with single quotes rewritten to double quotes;
a 200 response yields the payload and content type. -/
def loadUrlWorker (o : HttpOutcome) : FetchResult :=
  match o with
  | .transportError => ⟨none, none, none, none⟩
  | .response status body contentType =>
    if status ≠ 200 then
      let errorMessage := if contentType = "application/json" then
          some (pyReplace body (String.mk ['\'']) (String.mk ['"']))
        else none
      ⟨some status, none, none, errorMessage⟩
    else ⟨some status, some body, some contentType, none⟩

/-- The observable behaviour of one Downloader.loadUrl call: the returned
tuple, the number of worker attempts made, and the total units slept. -/
structure LoadUrlTrace where
  result : FetchResult
  attemptsMade : Nat
  sleepUnits : Nat
  deriving DecidableEq

/-- The while loop of Downloader.loadUrl, lines 51..57, with the number of
remaining iterations made explicit (retryCount is 3, retryInterval 2): a
worker result with a payload returns at once; otherwise the attempt counter
advances, two time units are slept, and the last status code and error
message are recorded. -/
def loadUrlGo (outcomes : Nat → HttpOutcome) :
    Nat → Nat → Option Nat → Option String → Nat → LoadUrlTrace
  | 0, attempt, lastStatusCode, lastErrorMessage, slept =>
    ⟨⟨lastStatusCode, none, none, lastErrorMessage⟩, attempt, slept⟩
  | remaining + 1, attempt, _, _, slept =>
    let r := loadUrlWorker (outcomes attempt)
    if r.urlPayload ≠ none then ⟨r, attempt + 1, slept⟩
    else loadUrlGo outcomes remaining (attempt + 1) r.statusCode r.errorMessage (slept + 2)

/-- Downloader.loadUrl, lines 44..60: up to three attempts over the given
outcome sequence. -/
def loadUrl (outcomes : Nat → HttpOutcome) : LoadUrlTrace :=
  loadUrlGo outcomes 3 0 none none 0

/-- An origin answering every attempt with a well-formed 404 response. -/
def status404 : Nat → HttpOutcome :=
  fun _ => .response 404 "not found" "text/plain"

/-- Python str.split with a single-character separator, over strings. -/
def pySplitChar (sep : Char) (s : String) : List String :=
  (splitOnCharL sep s.data).map String.mk

/-- Downloader.inferSigV4Signing, lines 150..164: the URL is split on dots;
element three is compared against the MediaPackage V2 marker; on a match the
region is element four and requests are signed; otherwise they stay
unsigned.  Indexing past the end of the split raises IndexError.  The
returned pair is the signing flag and the inferred region. -/
def inferSigV4Signing (url : String) : Except PyError (Bool × Option String) :=
  let parts := pySplitChar '.' url
  match parts[3]? with
  | none => .error .indexError
  | some p3 =>
    if p3 = "mediapackagev2" then
      match parts[4]? with
      | none => .error .indexError
      | some p4 => .ok (true, some p4)
    else .ok (false, none)

/-!  Resource-set construction (DashVodAsset.parseDashVodAsset lines 89..97
and HlsVodAsset.parseHlsVodAsset lines 67..77).  Converting the Python list
to a set and back removes duplicates; the model keeps the first occurrence
of each URL, which fixes an order the Python set does not promise, while
membership and uniqueness agree with the source. -/

/-- DASH: the media segments with the master manifest appended, then
deduplicated. -/
def dashAllResources (mediaSegments : List String) (masterManifest : String) : List String :=
  (mediaSegments ++ [masterManifest]).dedup

/-- HLS: the master manifest, the variant manifests and the media segments,
then deduplicated. -/
def hlsAllResources (masterManifest : String) (variantManifests mediaSegmentList : List String) :
    List String :=
  (masterManifest :: (variantManifests ++ mediaSegmentList)).dedup

/-!  Before-store hooks
(DashVodAsset.manipulateResourceBeforeWritingToStorage lines 123..124 and
HlsVodAsset.manipulateResourceBeforeWritingToStorage lines 103..115).  The
payload bytes decode to and from UTF-8 around the edit, so the hook is
modelled on the decoded string. -/

/-- The DASH hook returns its input pair unchanged. -/
def dashManipulateResourceBeforeWritingToStorage (resource payload contentType : String) :
    String × String :=
  (payload, contentType)

/-- The HLS hook: the query string of the resource URL is extracted; only
when the resource is the master manifest and the query string is non-empty is
every occurrence of the question mark followed by that query string removed
from the payload. -/
def hlsManipulateResourceBeforeWritingToStorage
    (masterManifest resource payload contentType : String) : String × String :=
  let queryStrings := (pyUrlparse resource).query
  if resource = masterManifest ∧ queryStrings ≠ "" then
    (pyReplace payload ("?" ++ queryStrings) "", contentType)
  else (payload, contentType)

/-!  Theorems.  Each claim of the specification review is settled by one
theorem named after it; closed counterexample and witness theorems accompany
the corrected and hypothesis-bearing ones. -/

/-- C1: the source expands RepresentationID in the init template, but its
Bandwidth and Time branches assign replacements performed on the expanded
media template, so an init template carrying a Bandwidth placeholder comes
back as the media template rather than as the expanded init template.  With
representation id v1 and bandwidth 1000, the media template
seg_dollar-RepresentationID-dollar_dollar-Time-dollar.m4s and the init
template init_dollar-RepresentationID-dollar_dollar-Bandwidth-dollar.mp4,
the code produces seg_v1_i.m4s where the claim requires init_v1_1000.mp4. -/
theorem c1_initTemplateExpansion_eval :
    expandMediaSegmentTemplate "seg_$RepresentationID$_$Time$.m4s" "v1" "1000" =
      "seg_v1_$Time$.m4s" ∧
    expandInitSegmentTemplate "init_$RepresentationID$_$Bandwidth$.mp4"
      "seg_v1_$Time$.m4s" "v1" "1000" = "seg_v1_i.m4s" ∧
    ("seg_v1_i.m4s" : String) ≠ "init_v1_1000.mp4" := by
  refine ⟨rfl, rfl, ?_⟩
  decide

/-- C4: the variant-playlist classifier indexes every non-tag line at
position zero, so the blank line raises IndexError instead of being ignored,
while the master classifier skips it; the quoted-comma extraction the claim
also describes does hold on the spec example line, and a recognized tag line
without a URI attribute raises KeyError in both classifiers. -/
theorem c4_lineClassification_eval :
    classifyVariantLine "" = .error .indexError ∧
    classifyMasterLine "" = .ok none ∧
    classifyMasterLine "#EXT-X-MEDIA:TYPE=AUDIO,URI=\"aud/a.m3u8\",NAME=\"en, US\"" =
      .ok (some "aud/a.m3u8") ∧
    classifyVariantLine "#EXT-X-MAP:URI=\"init/v1_init.mp4\"" = .ok (some "init/v1_init.mp4") ∧
    classifyVariantLine "seg1.ts" = .ok (some "seg1.ts") ∧
    classifyVariantLine "#EXT-X-VERSION:4" = .ok none ∧
    classifyMasterLine "#EXT-X-MEDIA:TYPE=AUDIO,NAME=\"x\"" = .error .keyError :=
  ⟨rfl, rfl, rfl, rfl, rfl, rfl, rfl⟩

/-- C5: the truncation of the common prefix back to the last slash is
implemented by compiling the basename into a regex; a basename containing a
regex metacharacter (here the plus sign) fails to match itself, so the
common prefix of the two URLs keeps the partial filename a-plus and does not
end in a slash, where the claim (and the source comment) require
https-colon-slash-slash-h-slash. -/
theorem c5_commonPrefix_eval :
    computeCommonPre ["https://h/a+1.m4s", "https://h/a+2.m4s"] = "https://h/a+" ∧
    ("https://h/a+" : String) ≠ "https://h/" ∧
    computeCommonPre ["https://h/a/seg1.m4s", "https://h/a/segX.m4s"] = "https://h/a/" ∧
    computeCommonPre ["https://h/a/b/seg1.m4s", "https://h/a/b/seg2.m4s"] = "https://h/a/b/" := by
  refine ⟨rfl, ?_, rfl, rfl⟩
  decide

/-- C2 counterexample: an origin that answers every attempt with a
well-formed 404 response is retried; loadUrl makes all three attempts and
sleeps twice two time units before giving the status back, instead of
surfacing the response after one attempt as the claim states. -/
theorem c2_counterexample :
    loadUrl status404 = ⟨⟨some 404, none, none, none⟩, 3, 6⟩ ∧
    (loadUrl status404).attemptsMade ≠ 1 :=
  ⟨rfl, by decide⟩

/-- C7 counterexample: a URL whose dot-split has fewer than four components
makes inferSigV4Signing raise IndexError instead of choosing the unsigned
mode, contradicting the claim that detection is total. -/
theorem c7_counterexample :
    inferSigV4Signing "https://example.com/file" = .error .indexError ∧
    inferSigV4Signing "https://example.com/file" ≠ .ok (false, none) :=
  ⟨rfl, fun h => by
    have h2 : Except.error PyError.indexError = Except.ok (false, (none : Option String)) := h
    exact Except.noConfusion h2⟩

/-- C8 counterexample: a reference that already carries a scheme is returned
verbatim by the resolution step, with its redundant double-dot component
preserved, not collapsed as the claim states; normalizeUrl would have
collapsed it. -/
theorem c8_counterexample :
    resolveReference "https://h/x/main.m3u8" "https://h/a/../b.ts" = "https://h/a/../b.ts" ∧
    normalizeUrl "https://h/a/../b.ts" = "https://h/b.ts" ∧
    resolveReference "https://h/x/main.m3u8" "https://h/a/../b.ts" ≠
      normalizeUrl "https://h/a/../b.ts" := by
  refine ⟨rfl, rfl, ?_⟩
  decide

/-- C2 (amended): loadUrl treats every worker result without a payload the
same way, whether it came from a transport failure or from a well-formed
non-200 response: it retries, up to three attempts in total with two time
units slept after each failed attempt, and after exhausting the budget it
reports the status code and error message observed on the last attempt; only
an attempt that produces a payload (a 200 response) returns immediately. -/
theorem c2_loadUrlRetryPolicy (outcomes : Nat → HttpOutcome) :
    ((∀ i, i < 3 → (loadUrlWorker (outcomes i)).urlPayload = none) →
      loadUrl outcomes =
        ⟨⟨(loadUrlWorker (outcomes 2)).statusCode, none, none,
          (loadUrlWorker (outcomes 2)).errorMessage⟩, 3, 6⟩) ∧
    ((loadUrlWorker (outcomes 0)).urlPayload ≠ none →
      loadUrl outcomes = ⟨loadUrlWorker (outcomes 0), 1, 0⟩) ∧
    ((loadUrlWorker (outcomes 0)).urlPayload = none →
      (loadUrlWorker (outcomes 1)).urlPayload ≠ none →
      loadUrl outcomes = ⟨loadUrlWorker (outcomes 1), 2, 2⟩) ∧
    ((loadUrlWorker (outcomes 0)).urlPayload = none →
      (loadUrlWorker (outcomes 1)).urlPayload = none →
      (loadUrlWorker (outcomes 2)).urlPayload ≠ none →
      loadUrl outcomes = ⟨loadUrlWorker (outcomes 2), 3, 4⟩) := by
  refine ⟨?_, ?_, ?_, ?_⟩
  · intro hf
    have h0 := hf 0 (by omega)
    have h1 := hf 1 (by omega)
    have h2 := hf 2 (by omega)
    simp [loadUrl, loadUrlGo, h0, h1, h2]
  · intro h0
    simp [loadUrl, loadUrlGo, h0]
  · intro h0 h1
    simp [loadUrl, loadUrlGo, h0, h1]
  · intro h0 h1 h2
    simp [loadUrl, loadUrlGo, h0, h1, h2]

/-- C2 witness: three transport failures exhaust the budget with six units
slept; a first-attempt 200 response returns after one attempt. -/
theorem c2_loadUrlRetryPolicy_witness :
    loadUrl (fun _ => .transportError) = ⟨⟨none, none, none, none⟩, 3, 6⟩ ∧
    loadUrl (fun _ => .response 200 "#EXTM3U" "application/x-mpegURL") =
      ⟨⟨some 200, some "#EXTM3U", some "application/x-mpegURL", none⟩, 1, 0⟩ :=
  ⟨(c2_loadUrlRetryPolicy (fun _ => .transportError)).1 (fun i _ => rfl),
   (c2_loadUrlRetryPolicy (fun _ => .response 200 "#EXTM3U" "application/x-mpegURL")).2.1
     (by decide)⟩

/-- C7 (amended): the signing auto-detection is driven by the dot-split of
the whole URL: with at least four components it succeeds, choosing signed
mode exactly when component three is the MediaPackage V2 marker, in which
case the region is component four (provided a fifth component exists);
a URL with at most three dot-separated components raises IndexError instead
of falling back to an unsigned request, as does a marker match without a
fifth component. -/
theorem c7_authDetection (url : String) :
    ((pySplitChar '.' url).length ≤ 3 → inferSigV4Signing url = .error .indexError) ∧
    (∀ p3, (pySplitChar '.' url)[3]? = some p3 → p3 ≠ "mediapackagev2" →
      inferSigV4Signing url = .ok (false, none)) ∧
    (∀ p4, (pySplitChar '.' url)[3]? = some "mediapackagev2" →
      (pySplitChar '.' url)[4]? = some p4 →
      inferSigV4Signing url = .ok (true, some p4)) ∧
    ((pySplitChar '.' url)[3]? = some "mediapackagev2" →
      (pySplitChar '.' url)[4]? = none →
      inferSigV4Signing url = .error .indexError) := by
  refine ⟨?_, ?_, ?_, ?_⟩
  · intro hlen
    have h3 : (pySplitChar '.' url)[3]? = none := List.getElem?_eq_none hlen
    simp [inferSigV4Signing, h3]
  · intro p3 h3 hne
    simp [inferSigV4Signing, h3, hne]
  · intro p4 h3 h4
    simp [inferSigV4Signing, h3, h4]
  · intro h3 h4
    simp [inferSigV4Signing, h3, h4]

/-- C7 witness: a plain origin URL with one dot raises IndexError; a CDN URL
with enough dots stays unsigned; a MediaPackage V2 egress URL is signed with
the region read out of the hostname. -/
theorem c7_authDetection_witness :
    inferSigV4Signing "https://cdn.example.com/vod/a.b.index.mpd" = .ok (false, none) ∧
    inferSigV4Signing
      "https://abc.egress.xyz.mediapackagev2.us-east-1.amazonaws.com/out/index.mpd" =
      .ok (true, some "us-east-1") ∧
    inferSigV4Signing "https://ex.com/file" = .error .indexError :=
  ⟨(c7_authDetection "https://cdn.example.com/vod/a.b.index.mpd").2.1 "b" rfl
      (by decide),
   (c7_authDetection
      "https://abc.egress.xyz.mediapackagev2.us-east-1.amazonaws.com/out/index.mpd").2.2.1
      "us-east-1" rfl rfl,
   (c7_authDetection "https://ex.com/file").1 (by decide)⟩

/-- C8 (amended): a non-empty reference starting with the characters http is
returned by the resolution step verbatim, with no path normalization applied
to it (redundant dot components and the query string are preserved exactly
as written), and resolution is therefore idempotent on such references. -/
theorem c8_absoluteReferencePassthrough (manifestUrl name : String)
    (h : pyStartswith name "http" = true) :
    resolveReference manifestUrl name = name ∧
    resolveReference manifestUrl (resolveReference manifestUrl name) = name := by
  have hne : name ≠ "" := fun he => absurd (he ▸ h) (by decide)
  have h1 : resolveReference manifestUrl name = name := by
    rw [resolveReference, if_pos ⟨hne, h⟩]
  exact ⟨h1, by rw [h1, h1]⟩

/-- C8 witness: the scheme-bearing reference with a double-dot component is
passed through twice unchanged. -/
theorem c8_absoluteReferencePassthrough_witness :
    resolveReference "https://h/x/main.m3u8" "https://h/a/../b.ts?tok=2" =
      "https://h/a/../b.ts?tok=2" ∧
    resolveReference "https://h/x/main.m3u8"
      (resolveReference "https://h/x/main.m3u8" "https://h/a/../b.ts?tok=2") =
      "https://h/a/../b.ts?tok=2" :=
  c8_absoluteReferencePassthrough "https://h/x/main.m3u8" "https://h/a/../b.ts?tok=2" rfl

/-- Once the cursor is set, the source timeline loop agrees with the
spec-modelled emission everywhere. -/
theorem getSegmentTimelineGo_some (l : List SElem) :
    ∀ cur : Int, getSegmentTimelineGo (some cur) l = some (specExplicitTimeline cur l) := by
  induction l with
  | nil => intro cur; rfl
  | cons comp rest ih =>
    intro cur
    cases hco : comp.t with
    | none => simp [getSegmentTimelineGo, specExplicitTimeline, hco, ih]
    | some v => simp [getSegmentTimelineGo, specExplicitTimeline, hco, ih]

/-- C3: on a timeline whose first S element carries an explicit start time,
the source resolver succeeds and emits, per element, the cursor value
followed by its repeats at multiples of the duration, the cursor advancing by
the repeat count plus one times the duration; the two concrete timelines of
the claim come out as zero ten twenty and as zero five ten. -/
theorem c3_explicitTimeline (c0 : SElem) (rest : List SElem) (t0 : Int)
    (h : c0.t = some t0) :
    getSegmentTimeline (c0 :: rest) = some (specExplicitTimeline t0 (c0 :: rest)) ∧
    getSegmentTimeline [⟨some 0, 10, some 2⟩] = some [0, 10, 20] ∧
    getSegmentTimeline [⟨some 0, 5, some 0⟩, ⟨none, 5, some 1⟩] = some [0, 5, 10] := by
  refine ⟨?_, rfl, rfl⟩
  simp [getSegmentTimeline, getSegmentTimelineGo, specExplicitTimeline, h,
    getSegmentTimelineGo_some]

/-- C3 witness: the first claim example instantiates the general statement,
its first element carrying the explicit start time zero. -/
theorem c3_explicitTimeline_witness :
    getSegmentTimeline [⟨some 0, 10, some 2⟩] =
      some (specExplicitTimeline 0 [⟨some 0, 10, some 2⟩]) ∧
    getSegmentTimeline [⟨some 0, 10, some 2⟩] = some [0, 10, 20] ∧
    getSegmentTimeline [⟨some 0, 5, some 0⟩, ⟨none, 5, some 1⟩] = some [0, 5, 10] :=
  c3_explicitTimeline ⟨some 0, 10, some 2⟩ [] 0 rfl

/-- The computable rational floor agrees with the mathematical floor. -/
theorem rat_floor_eq_intFloor (q : ℚ) : q.floor = ⌊q⌋ :=
  (Rat.floor_def' q).trans Rat.floor_def.symm

/-- C6: for a parsable period duration of a non-negative number of seconds
and positive duration and timescale, the inferred timeline holds exactly the
truncated quotient of the period duration by the segment size many entries,
the successive integers from startNumber on; the claim example with start
number one, timescale one, duration four and period PT10S yields one and two
(floor of ten quarters being two). -/
theorem c6_inferredTimeline (startNumber : Int) (timescale duration : ℚ)
    (periodDuration : String) (seconds : ℚ)
    (hp : parse_duration periodDuration = some seconds)
    (hts : 0 < timescale) (hd : 0 < duration) (hs : 0 ≤ seconds) :
    getInferredSegmentTimeline startNumber timescale duration periodDuration =
      some ((List.range (⌊seconds / (duration / timescale)⌋).toNat).map
        (fun i => startNumber + (i : Int))) ∧
    pyInt (seconds / (duration / timescale)) = ⌊seconds / (duration / timescale)⌋ ∧
    getInferredSegmentTimeline 1 1 4 "PT10S" = some [1, 2] := by
  have hq : 0 ≤ seconds / (duration / timescale) :=
    div_nonneg hs (le_of_lt (div_pos hd hts))
  have hpy : pyInt (seconds / (duration / timescale)) =
      ⌊seconds / (duration / timescale)⌋ := by
    rw [pyInt, if_pos hq, rat_floor_eq_intFloor]
  refine ⟨?_, hpy, ?_⟩
  · simp only [getInferredSegmentTimeline, hp, pyRange, hpy, add_sub_cancel_left]
  · have hpd : parse_duration "PT10S" = some ((10 : ℕ) : ℚ) := rfl
    have hfl : pyInt (((10 : ℕ) : ℚ) / ((4 : ℚ) / (1 : ℚ))) = 2 := by
      have hq2 : (0 : ℚ) ≤ ((10 : ℕ) : ℚ) / ((4 : ℚ) / (1 : ℚ)) := by norm_num
      rw [pyInt, if_pos hq2, rat_floor_eq_intFloor]
      norm_num
    rw [getInferredSegmentTimeline, hpd]
    simp only [hfl]
    rfl

/-- C6 witness: the general statement applied at the claim example. -/
theorem c6_inferredTimeline_witness :
    getInferredSegmentTimeline 1 1 4 "PT10S" =
      some ((List.range (⌊((10 : ℕ) : ℚ) / ((4 : ℚ) / (1 : ℚ))⌋).toNat).map
        (fun i => (1 : Int) + (i : Int))) ∧
    pyInt (((10 : ℕ) : ℚ) / ((4 : ℚ) / (1 : ℚ))) =
      ⌊((10 : ℕ) : ℚ) / ((4 : ℚ) / (1 : ℚ))⌋ ∧
    getInferredSegmentTimeline 1 1 4 "PT10S" = some [1, 2] :=
  c6_inferredTimeline 1 1 4 "PT10S" ((10 : ℕ) : ℚ) rfl (by norm_num) (by norm_num)
    (by norm_num)

/-- C9: both resource lists are duplicate-free after the set round trip;
the master manifest, every media or init segment URL and, for HLS, every
variant manifest URL are members, each counted exactly once, and nothing
else is a member. -/
theorem c9_resourceDeduplication (mediaSegments variantManifests : List String)
    (masterManifest : String) :
    (dashAllResources mediaSegments masterManifest).Nodup ∧
    masterManifest ∈ dashAllResources mediaSegments masterManifest ∧
    (∀ u, u ∈ dashAllResources mediaSegments masterManifest ↔
      (u ∈ mediaSegments ∨ u = masterManifest)) ∧
    (∀ u, u ∈ dashAllResources mediaSegments masterManifest →
      (dashAllResources mediaSegments masterManifest).count u = 1) ∧
    (hlsAllResources masterManifest variantManifests mediaSegments).Nodup ∧
    (∀ u, u ∈ hlsAllResources masterManifest variantManifests mediaSegments ↔
      (u = masterManifest ∨ u ∈ variantManifests ∨ u ∈ mediaSegments)) ∧
    (∀ u, u ∈ hlsAllResources masterManifest variantManifests mediaSegments →
      (hlsAllResources masterManifest variantManifests mediaSegments).count u = 1) := by
  refine ⟨List.nodup_dedup _, ?_, ?_, ?_, List.nodup_dedup _, ?_, ?_⟩
  · simp [dashAllResources, List.mem_dedup]
  · intro u
    simp [dashAllResources, List.mem_dedup]
  · intro u hu
    exact List.count_eq_one_of_mem (List.nodup_dedup _) hu
  · intro u
    simp [hlsAllResources, List.mem_dedup]
  · intro u hu
    exact List.count_eq_one_of_mem (List.nodup_dedup _) hu

/-- C9 witness: a DASH asset whose init segment appears twice across periods
collapses to one entry, and the HLS list keeps master, variant and segment
URLs once each. -/
theorem c9_resourceDeduplication_witness :
    (dashAllResources ["https://h/s1.m4s", "https://h/i.mp4", "https://h/i.mp4"]
      "https://h/m.mpd").Nodup ∧
    ("https://h/i.mp4" ∈ dashAllResources
      ["https://h/s1.m4s", "https://h/i.mp4", "https://h/i.mp4"] "https://h/m.mpd") ∧
    (dashAllResources ["https://h/s1.m4s", "https://h/i.mp4", "https://h/i.mp4"]
      "https://h/m.mpd").count "https://h/i.mp4" = 1 ∧
    (hlsAllResources "https://h/m.m3u8" ["https://h/v1.m3u8"] ["https://h/s1.ts"]).count
      "https://h/m.m3u8" = 1 := by
  refine ⟨(c9_resourceDeduplication ["https://h/s1.m4s", "https://h/i.mp4", "https://h/i.mp4"]
      [] "https://h/m.mpd").1, ?_, ?_, ?_⟩
  · exact ((c9_resourceDeduplication ["https://h/s1.m4s", "https://h/i.mp4", "https://h/i.mp4"]
      [] "https://h/m.mpd").2.2.1 "https://h/i.mp4").mpr (Or.inl (by decide))
  · exact (c9_resourceDeduplication ["https://h/s1.m4s", "https://h/i.mp4", "https://h/i.mp4"]
      [] "https://h/m.mpd").2.2.2.1 "https://h/i.mp4" (by decide)
  · exact (c9_resourceDeduplication ["https://h/s1.ts"] ["https://h/v1.m3u8"]
      "https://h/m.m3u8").2.2.2.2.2.2 "https://h/m.m3u8" (by decide)

/-- C10: the DASH before-store hook is the identity; the HLS hook leaves
every resource other than the master manifest untouched, leaves the master
manifest untouched when its URL has no query string, and, when the master
manifest URL carries a non-empty query string, removes the occurrences of
the question mark followed by that query string from the payload while
keeping the content type. -/
theorem c10_beforeStoreHooks (masterManifest resource payload contentType : String) :
    dashManipulateResourceBeforeWritingToStorage resource payload contentType =
      (payload, contentType) ∧
    (resource ≠ masterManifest →
      hlsManipulateResourceBeforeWritingToStorage masterManifest resource payload
        contentType = (payload, contentType)) ∧
    ((pyUrlparse masterManifest).query = "" →
      hlsManipulateResourceBeforeWritingToStorage masterManifest masterManifest payload
        contentType = (payload, contentType)) ∧
    ((pyUrlparse masterManifest).query ≠ "" →
      hlsManipulateResourceBeforeWritingToStorage masterManifest masterManifest payload
        contentType =
        (pyReplace payload ("?" ++ (pyUrlparse masterManifest).query) "", contentType)) := by
  refine ⟨rfl, ?_, ?_, ?_⟩
  · intro hne
    rw [hlsManipulateResourceBeforeWritingToStorage]
    rw [if_neg (fun hc => hne hc.1)]
  · intro hq
    rw [hlsManipulateResourceBeforeWritingToStorage]
    rw [if_neg (fun hc => hc.2 hq)]
  · intro hq
    rw [hlsManipulateResourceBeforeWritingToStorage]
    rw [if_pos ⟨rfl, hq⟩]

/-- C10 witness: a segment resource passes through unchanged; a master
manifest without a query passes through; a master manifest with a query
token has the token occurrences stripped from the stored body. -/
theorem c10_beforeStoreHooks_witness :
    dashManipulateResourceBeforeWritingToStorage "https://h/s1.m4s" "body" "video/mp4" =
      ("body", "video/mp4") ∧
    hlsManipulateResourceBeforeWritingToStorage "https://h/m.m3u8?tok=1" "https://h/s1.ts"
      "segdata" "video/mp2t" = ("segdata", "video/mp2t") ∧
    hlsManipulateResourceBeforeWritingToStorage "https://h/m.m3u8" "https://h/m.m3u8"
      "#EXTM3U v1.m3u8" "application/x-mpegURL" =
      ("#EXTM3U v1.m3u8", "application/x-mpegURL") ∧
    hlsManipulateResourceBeforeWritingToStorage "https://h/m.m3u8?tok=1"
      "https://h/m.m3u8?tok=1" "#EXTM3U v1.m3u8?tok=1" "application/x-mpegURL" =
      (pyReplace "#EXTM3U v1.m3u8?tok=1" ("?" ++ (pyUrlparse "https://h/m.m3u8?tok=1").query)
        "", "application/x-mpegURL") :=
  ⟨(c10_beforeStoreHooks "https://h/m.mpd" "https://h/s1.m4s" "body" "video/mp4").1,
   (c10_beforeStoreHooks "https://h/m.m3u8?tok=1" "https://h/s1.ts" "segdata"
      "video/mp2t").2.1 (by decide),
   (c10_beforeStoreHooks "https://h/m.m3u8" "https://h/m.m3u8" "#EXTM3U v1.m3u8"
      "application/x-mpegURL").2.2.1 (by decide),
   (c10_beforeStoreHooks "https://h/m.m3u8?tok=1" "https://h/m.m3u8?tok=1"
      "#EXTM3U v1.m3u8?tok=1" "application/x-mpegURL").2.2.2 (by decide)⟩

end VodMigrator
